import Mathlib

/-!
Shallow embedding of the WHATSAAPWEB webhook ingestion pipeline.

Sources embedded here:
- `src/server/index.js` — the Express server: the `POST /webhook` handler
  (message insertion, status reconciliation, contact handling) in both its
  MongoDB branch and its in-memory fallback branch, the in-memory seed data,
  and the read endpoints `GET /api/contacts` and `GET /api/messages/:wa_id`.
- `src/unnamed/part_000` — the offline `WebhookProcessor` script
  (`processWebhookPayload`), which uses Mongo upserts for messages and also
  writes `meta_msg_id` and `status_timestamp`.

Conventions of the embedding:
- JS strings are `String`, optional / possibly-`undefined` fields are `Option`.
- Provider timestamps arrive as decimal digit strings and are read with
  `parseInt`; we model the parsed value directly as a `Nat` (the claims only
  concern numeric timestamps).
- MongoDB collections are modelled as lists of documents in insertion order;
  `updateOne` touches the first matching document, `insertOne` appends and
  fails on a duplicate `_id` (unique-index violation), `upsert: true` appends
  when nothing matches.
- A thrown-and-caught exception in the HTTP handler is modelled by the
  handler returning status 500 with the state reached so far.
- `part_000` additionally stores a wall-clock `updated_at` on contacts; wall
  clock time is outside the embedding and that field is omitted.
-/

/-- A contact profile object `{ name }`; `name` may be absent. -/
structure ContactProfile where
  name : Option String
deriving DecidableEq, Repr

/-- A contact descriptor `{ wa_id, profile }` from a webhook payload. -/
structure ContactEvent where
  wa_id : String
  profile : Option ContactProfile
deriving DecidableEq, Repr

/-- A message event `{ id, from, timestamp, type, text }` from a webhook
payload. `timestamp` is the `parseInt` of the provider's seconds string;
`text` is the optional text body. -/
structure MessageEvent where
  id : String
  from_ : String
  timestamp : Nat
  type_ : String
  text : Option String
deriving DecidableEq, Repr

/-- A status event `{ id, status, timestamp, recipient_id }`. -/
structure StatusEvent where
  id : String
  status : String
  timestamp : Nat
  recipient_id : String
deriving DecidableEq, Repr

/-- The `changes[i].value` object. `metadata_phone_number_id` flattens
`value.metadata?.phone_number_id` (absent metadata and absent
`phone_number_id` are indistinguishable to the code, which reads it with
`?.` and `||`). -/
structure ChangeValue where
  metadata_phone_number_id : Option String
  messages : Option (List MessageEvent)
  statuses : Option (List StatusEvent)
  contacts : Option (List ContactEvent)
deriving DecidableEq, Repr

/-- One element of `entry[i].changes`. -/
structure Change where
  field : String
  value : Option ChangeValue
deriving DecidableEq, Repr

/-- One element of `payload.entry`. -/
structure Entry where
  changes : Option (List Change)
deriving DecidableEq, Repr

/-- A webhook request body. Only `entry` is consulted by the code. -/
structure Payload where
  entry : Option (List Entry)
deriving DecidableEq, Repr

/-- A document of the `processed_messages` collection / the in-memory
`messagesStore`. The server's webhook handler never writes `meta_msg_id`
or `status_timestamp` (they stay `none`); the offline `WebhookProcessor`
writes both. -/
structure StoredMessage where
  _id : String
  id : String
  meta_msg_id : Option String
  from_ : String
  to_ : String
  text : Option String
  timestamp : Nat
  type_ : String
  status : String
  status_timestamp : Option Nat
  wa_id : String
  profile_name : String
deriving DecidableEq, Repr

/-- An entry of the in-memory `contactsStore` (fallback mode). -/
structure StoredContact where
  wa_id : String
  profile_name : String
  unreadCount : Nat
deriving DecidableEq, Repr

/-- A document of the Mongo `contacts` collection: the `$set` writes
`profile_name` and `wa_id` (no unread count). -/
structure MongoContact where
  wa_id : String
  profile_name : String
deriving DecidableEq, Repr

/-- JS `x || b` for a possibly-undefined string `x`: both `undefined` and
the empty string are falsy. -/
def jsOr : Option String → String → String
  | none, b => b
  | some s, b => if s = "" then b else s

/-- `contacts?.[0]?.profile?.name` — the first contact's profile name,
when every step of the optional chain is present. -/
def firstContactName (cts : Option (List ContactEvent)) : Option String :=
  ((cts.bind List.head?).bind ContactEvent.profile).bind ContactProfile.name

/-- The `processedMessage` object built by the server's webhook handler
(`src/server/index.js` lines 148–159). Note: no `meta_msg_id`, no
`status_timestamp`. -/
def processedMessage (meta : Option String) (cts : Option (List ContactEvent))
    (m : MessageEvent) : StoredMessage :=
  { _id := "msg_" ++ m.id
  , id := m.id
  , meta_msg_id := none
  , from_ := m.from_
  , to_ := jsOr meta "business"
  , text := m.text
  , timestamp := m.timestamp * 1000
  , type_ := m.type_
  , status := "received"
  , status_timestamp := none
  , wa_id := m.from_
  , profile_name := jsOr (firstContactName cts) m.from_ }

/-- The `processedMessage` object built by the offline `WebhookProcessor`
(`src/unnamed/part_000` lines 58–70): same fields as the server's, plus
`meta_msg_id = message.id`. -/
def processedMessageP0 (meta : Option String) (cts : Option (List ContactEvent))
    (m : MessageEvent) : StoredMessage :=
  { _id := "msg_" ++ m.id
  , id := m.id
  , meta_msg_id := some m.id
  , from_ := m.from_
  , to_ := jsOr meta "business"
  , text := m.text
  , timestamp := m.timestamp * 1000
  , type_ := m.type_
  , status := "received"
  , status_timestamp := none
  , wa_id := m.from_
  , profile_name := jsOr (firstContactName cts) m.from_ }

/-- The status-reconciliation match predicate:
`msg.id === status.id || msg.meta_msg_id === status.id` (used both as the
Mongo `$or` query and in the fallback `findIndex`). -/
def statusMatches (sid : String) (m : StoredMessage) : Bool :=
  m.id = sid || m.meta_msg_id = some sid

/-- The server's status update applied to a message list: the first message
matching `statusMatches` gets `status := status.status`; nothing else
changes. Models both `updateOne(updateQuery, { $set: { status } })` on the
Mongo collection and the fallback `findIndex` + in-place assignment. -/
def applyStatusMem (s : StatusEvent) : List StoredMessage → List StoredMessage
  | [] => []
  | m :: rest =>
    if statusMatches s.id m then { m with status := s.status } :: rest
    else m :: applyStatusMem s rest

/-- The offline `WebhookProcessor`'s status update
(`src/unnamed/part_000` lines 85–98): first OR-match gets
`$set { status, status_timestamp: parseInt(timestamp) * 1000 }`. -/
def applyStatusP0 (s : StatusEvent) : List StoredMessage → List StoredMessage
  | [] => []
  | m :: rest =>
    if statusMatches s.id m then
      { m with status := s.status, status_timestamp := some (s.timestamp * 1000) } :: rest
    else m :: applyStatusP0 s rest

/-- `$set` of the offline processor's full `processedMessage` document onto
an existing document: every field of the document is listed in the `$set`
except `status_timestamp`, which the `$set` does not mention and which
therefore survives from the old document. -/
def setMessageFields (pm old : StoredMessage) : StoredMessage :=
  { pm with status_timestamp := old.status_timestamp }

/-- The offline `WebhookProcessor`'s message write
(`src/unnamed/part_000` lines 72–76):
`updateOne({ id: message.id }, { $set: processedMessage }, { upsert: true })` —
replace the fields of the first document with that `id`, or append when
none exists. -/
def upsertMessageP0 (pm : StoredMessage) : List StoredMessage → List StoredMessage
  | [] => [pm]
  | m :: rest =>
    if m.id = pm.id then setMessageFields pm m :: rest
    else m :: upsertMessageP0 pm rest

/-- The fallback contact handling (`src/server/index.js` lines 219–226):
push a new entry (with `unreadCount: 0`) only when no entry with that
`wa_id` exists; otherwise do nothing (the existing name is kept). -/
def applyContactMem (c : ContactEvent) (store : List StoredContact) : List StoredContact :=
  if store.any (fun x => x.wa_id = c.wa_id) then store
  else store ++ [{ wa_id := c.wa_id
                 , profile_name := jsOr (c.profile.bind ContactProfile.name) c.wa_id
                 , unreadCount := 0 }]

/-- The Mongo contact write (`src/server/index.js` lines 208–217, likewise
`src/unnamed/part_000` lines 111–121):
`updateOne({ wa_id }, { $set: { profile_name, wa_id } }, { upsert: true })` —
the first document with that `wa_id` gets the new name, or a new document is
appended. Unconditional last-write-wins. -/
def upsertContactMongo (c : ContactEvent) : List MongoContact → List MongoContact
  | [] => [{ wa_id := c.wa_id
           , profile_name := jsOr (c.profile.bind ContactProfile.name) c.wa_id }]
  | x :: rest =>
    if x.wa_id = c.wa_id then
      { wa_id := c.wa_id
      , profile_name := jsOr (c.profile.bind ContactProfile.name) c.wa_id } :: rest
    else x :: upsertContactMongo c rest

/-- A realtime event emitted via `io.emit`. -/
inductive Emit where
  | newMessage (m : StoredMessage)
  | messageStatusUpdate (messageId status : String)
deriving DecidableEq, Repr

/-- The server's in-memory (fallback-mode) mutable state: `messagesStore`
and `contactsStore`. -/
structure MemState where
  messagesStore : List StoredMessage
  contactsStore : List StoredContact
deriving DecidableEq, Repr

/-- The Mongo-mode state: the `processed_messages` and `contacts`
collections. -/
structure MongoState where
  processed_messages : List StoredMessage
  contacts : List MongoContact
deriving DecidableEq, Repr

/-- The hard-coded seed of the in-memory `contactsStore`
(`src/server/index.js` lines 40–56). -/
def initialContactsStore : List StoredContact :=
  [ { wa_id := "1234567890", profile_name := "John Doe", unreadCount := 2 }
  , { wa_id := "0987654321", profile_name := "Jane Smith", unreadCount := 0 }
  , { wa_id := "5555555555", profile_name := "Mike Johnson", unreadCount := 1 } ]

/-- The fallback state at server startup: empty `messagesStore`, seeded
`contactsStore`. -/
def initMemState : MemState :=
  { messagesStore := [], contactsStore := initialContactsStore }

/-- The Mongo state with both collections empty (a fresh database). -/
def initMongoState : MongoState :=
  { processed_messages := [], contacts := [] }

/-- Envelope extraction shared by the webhook handlers: the guard
`payload.entry && payload.entry[0] && payload.entry[0].changes` followed by
`changes = payload.entry[0].changes[0]` and the test
`changes.field === 'messages' && changes.value`.
Result: `.ok none` — the guard or the test failed, nothing is processed;
`.ok (some v)` — process `v`; `.error ()` — `changes` is an empty array,
so `changes[0]` is `undefined` and reading `.field` of it throws a
`TypeError`. Note an empty `entry` array is truthy but `entry[0]` is
`undefined`, so it fails the guard instead of throwing. -/
def extractValue (p : Payload) : Except Unit (Option ChangeValue) :=
  match p.entry with
  | none => .ok none
  | some entries =>
    match entries.head? with
    | none => .ok none
    | some e0 =>
      match e0.changes with
      | none => .ok none
      | some chs =>
        match chs.head? with
        | none => .error ()
        | some ch => if ch.field = "messages" then .ok ch.value else .ok none

/-- The message loop of the fallback branch (`src/server/index.js` lines
146–169): for each message event, push `processedMessage` onto the store and
emit `newMessage`. Returns the new store and the emits in order. -/
def processMessagesMem (meta : Option String) (cts : Option (List ContactEvent)) :
    List MessageEvent → List StoredMessage → List StoredMessage × List Emit
  | [], store => (store, [])
  | m :: rest, store =>
    let pm := processedMessage meta cts m
    let r := processMessagesMem meta cts rest (store ++ [pm])
    (r.1, Emit.newMessage pm :: r.2)

/-- The status loop (`src/server/index.js` lines 173–201): each status event
updates the first OR-match (when any) and then `messageStatusUpdate` is
emitted unconditionally. Identical in the Mongo and fallback branches. -/
def processStatusesMem : List StatusEvent → List StoredMessage →
    List StoredMessage × List Emit
  | [], store => (store, [])
  | s :: rest, store =>
    let store2 := applyStatusMem s store
    let r := processStatusesMem rest store2
    (r.1, Emit.messageStatusUpdate s.id s.status :: r.2)

/-- The contact loop of the fallback branch (`src/server/index.js` lines
205–228): insert-if-absent, no emits. -/
def processContactsMem : List ContactEvent → List StoredContact → List StoredContact
  | [], store => store
  | c :: rest, store => processContactsMem rest (applyContactMem c store)

/-- The webhook handler result (HTTP status, state after, emits in order). -/
structure WebhookResult where
  httpStatus : Nat
  state : MemState
  emits : List Emit
deriving DecidableEq, Repr

/-- `POST /webhook` in fallback mode (`src/server/index.js` lines 133–238,
`db = null`): extract the envelope; on the `TypeError` of an empty `changes`
array the catch block answers 500; otherwise process messages, then
statuses, then contacts, and answer 200. -/
def postWebhookMem (p : Payload) (st : MemState) : WebhookResult :=
  match extractValue p with
  | .error _ => { httpStatus := 500, state := st, emits := [] }
  | .ok none => { httpStatus := 200, state := st, emits := [] }
  | .ok (some v) =>
    let r1 := processMessagesMem v.metadata_phone_number_id v.contacts
      (v.messages.getD []) st.messagesStore
    let r2 := processStatusesMem (v.statuses.getD []) r1.1
    let cs := processContactsMem (v.contacts.getD []) st.contactsStore
    { httpStatus := 200
    , state := { messagesStore := r2.1, contactsStore := cs }
    , emits := r1.2 ++ r2.2 }

/-- The message loop of the Mongo branch (`src/server/index.js` lines
146–169, `db` set): `insertOne` appends, but throws a duplicate-key error
when a document with the same `_id` already exists; the throw aborts the
loop (the emit for the failing message and all later processing are
skipped). First component: `true` iff no insert failed. -/
def processMessagesMongo (meta : Option String) (cts : Option (List ContactEvent)) :
    List MessageEvent → List StoredMessage → Bool × List StoredMessage × List Emit
  | [], store => (true, store, [])
  | m :: rest, store =>
    let pm := processedMessage meta cts m
    if store.any (fun x => x._id = pm._id) then (false, store, [])
    else
      let r := processMessagesMongo meta cts rest (store ++ [pm])
      (r.1, r.2.1, Emit.newMessage pm :: r.2.2)

/-- The contact loop of the Mongo branch: unconditional upserts, no emits. -/
def processContactsMongo : List ContactEvent → List MongoContact → List MongoContact
  | [], store => store
  | c :: rest, store => processContactsMongo rest (upsertContactMongo c store)

/-- The webhook handler result in Mongo mode. -/
structure WebhookResultMongo where
  httpStatus : Nat
  state : MongoState
  emits : List Emit
deriving DecidableEq, Repr

/-- `POST /webhook` in Mongo mode (`src/server/index.js` lines 133–238,
`db` set): same envelope logic; a duplicate-key throw from `insertOne` is
caught at the handler boundary and answered 500 with the writes made so far
kept (no transaction). -/
def postWebhookMongo (p : Payload) (st : MongoState) : WebhookResultMongo :=
  match extractValue p with
  | .error _ => { httpStatus := 500, state := st, emits := [] }
  | .ok none => { httpStatus := 200, state := st, emits := [] }
  | .ok (some v) =>
    let r1 := processMessagesMongo v.metadata_phone_number_id v.contacts
      (v.messages.getD []) st.processed_messages
    if r1.1 then
      let r2 := processStatusesMem (v.statuses.getD []) r1.2.1
      let cs := processContactsMongo (v.contacts.getD []) st.contacts
      { httpStatus := 200
      , state := { processed_messages := r2.1, contacts := cs }
      , emits := r1.2.2 ++ r2.2 }
    else
      { httpStatus := 500
      , state := { processed_messages := r1.2.1, contacts := st.contacts }
      , emits := r1.2.2 }

/-- The offline `WebhookProcessor.processWebhookPayload`
(`src/unnamed/part_000` lines 47–131): same envelope logic, message upserts,
status updates with `status_timestamp`, contact upserts; any throw is caught
inside the method (state so far is kept, nothing is re-raised). It emits no
realtime events. -/
def processWebhookPayloadP0 (p : Payload) (st : MongoState) : MongoState :=
  match extractValue p with
  | .error _ => st
  | .ok none => st
  | .ok (some v) =>
    let ms1 := (v.messages.getD []).foldl
      (fun acc m => upsertMessageP0 (processedMessageP0 v.metadata_phone_number_id v.contacts m) acc)
      st.processed_messages
    let ms2 := (v.statuses.getD []).foldl (fun acc s => applyStatusP0 s acc) ms1
    let cs := (v.contacts.getD []).foldl (fun acc c => upsertContactMongo c acc) st.contacts
    { processed_messages := ms2, contacts := cs }

/-- Stable insertion of a message into a list sorted by `timestamp`
ascending (models the Mongo read sort `{ timestamp: 1 }`). -/
def insertByTs (m : StoredMessage) : List StoredMessage → List StoredMessage
  | [] => [m]
  | x :: xs => if m.timestamp < x.timestamp then m :: x :: xs else x :: insertByTs m xs

/-- Stable sort by `timestamp` ascending. -/
def sortByTs (l : List StoredMessage) : List StoredMessage :=
  l.foldr insertByTs []

/-- `GET /api/messages/:wa_id` in fallback mode: filter by `wa_id`
(no sort — `src/server/index.js` line 84). -/
def listMessagesMem (waId : String) (st : MemState) : List StoredMessage :=
  st.messagesStore.filter (fun m => m.wa_id = waId)

/-- `GET /api/messages/:wa_id` in Mongo mode: filter by `wa_id`, sorted by
`timestamp` ascending (`src/server/index.js` lines 78–81). -/
def listMessagesMongo (waId : String) (st : MongoState) : List StoredMessage :=
  sortByTs (st.processed_messages.filter (fun m => m.wa_id = waId))

/-- `GET /api/contacts` in fallback mode (`src/server/index.js` line 65). -/
def listContactsMem (st : MemState) : List StoredContact :=
  st.contactsStore

/-- `GET /api/contacts` in Mongo mode (`src/server/index.js` line 62). -/
def listContactsMongo (st : MongoState) : List MongoContact :=
  st.contacts

/-- Convenience constructor for a well-formed single-entry, single-change
payload with `field = "messages"` (the only shape the code processes). -/
def mkPayload (meta : Option String) (ms : Option (List MessageEvent))
    (sts : Option (List StatusEvent)) (cts : Option (List ContactEvent)) : Payload :=
  { entry := some [ { changes := some [ { field := "messages"
                                        , value := some { metadata_phone_number_id := meta
                                                        , messages := ms
                                                        , statuses := sts
                                                        , contacts := cts } } ] } ] }

/-! Concrete sample data used by witnesses and counterexamples. -/

/-- A sample inbound message event. -/
def mEv1 : MessageEvent :=
  { id := "m1", from_ := "111", timestamp := 1625097600, type_ := "text", text := some "hi" }

/-- A sample contact descriptor accompanying `mEv1`. -/
def ctJohn : ContactEvent :=
  { wa_id := "111", profile := some { name := some "John" } }

/-- A sample single-message payload. -/
def pMsg1 : Payload := mkPayload (some "ph1") (some [mEv1]) none (some [ctJohn])

/-- The stored record produced from `mEv1` by the server's webhook handler. -/
def storedM1 : StoredMessage := processedMessage (some "ph1") (some [ctJohn]) mEv1

/-- A status event for `m1` (delivered at 1625097660 seconds). -/
def stDel : StatusEvent :=
  { id := "m1", status := "delivered", timestamp := 1625097660, recipient_id := "111" }

/-- A status event referencing an id no stored message has. -/
def stNope : StatusEvent :=
  { id := "nope", status := "read", timestamp := 1625097700, recipient_id := "111" }

/-- A stored message whose `meta_msg_id` is `"X"` but whose `id` is not. -/
def wMsgMeta : StoredMessage :=
  { _id := "msg_a1", id := "a1", meta_msg_id := some "X", from_ := "222", to_ := "business"
  , text := none, timestamp := 1000, type_ := "text", status := "sent"
  , status_timestamp := none, wa_id := "222", profile_name := "222" }

/-- A stored message whose `id` is `"X"`. -/
def wMsgId : StoredMessage :=
  { _id := "msg_X", id := "X", meta_msg_id := none, from_ := "333", to_ := "business"
  , text := none, timestamp := 2000, type_ := "text", status := "received"
  , status_timestamp := none, wa_id := "333", profile_name := "333" }

/-- A status event referencing id `"X"`. -/
def stX : StatusEvent :=
  { id := "X", status := "read", timestamp := 1625097661, recipient_id := "222" }

/-- Two contact descriptors for the same `wa_id` with different names. -/
def ctAlice : ContactEvent := { wa_id := "777", profile := some { name := some "Alice" } }

/-- Second descriptor for `wa_id = "777"`, name `"Bob"`. -/
def ctBob : ContactEvent := { wa_id := "777", profile := some { name := some "Bob" } }

/-- A payload carrying the two conflicting contact descriptors. -/
def pAB : Payload := mkPayload none none none (some [ctAlice, ctBob])

/-- A payload whose `entry[0].changes` is an empty array. -/
def pEmptyChanges : Payload := { entry := some [ { changes := some [] } ] }

/-- A payload carrying one status event (`stNope`) and nothing else. -/
def pStatusOnly : Payload := mkPayload none none (some [stNope]) none

/-! Helper lemmas (shared across claims). -/

/-- Any list with a `p`-satisfying element splits at the first such
element. -/
theorem exists_first_split {α : Type} (p : α → Bool) (l : List α)
    (h : ∃ x ∈ l, p x = true) :
    ∃ pre x post, l = pre ++ x :: post ∧ (∀ y ∈ pre, p y = false) ∧ p x = true := by
  induction l with
  | nil => simp at h
  | cons a l ih =>
    cases hpa : p a with
    | true => exact ⟨[], a, l, rfl, by simp, hpa⟩
    | false =>
      have h2 : ∃ x ∈ l, p x = true := by
        rcases h with ⟨x, hx, hpx⟩
        rcases List.mem_cons.mp hx with h3 | h3
        · rw [h3] at hpx; rw [hpa] at hpx; exact absurd hpx (by simp)
        · exact ⟨x, h3, hpx⟩
      rcases ih h2 with ⟨pre, x, post, hl, hpre, hpx⟩
      refine ⟨a :: pre, x, post, ?_, ?_, hpx⟩
      · rw [hl]; rfl
      · intro y hy
        rcases List.mem_cons.mp hy with h3 | h3
        · rw [h3]; exact hpa
        · exact hpre y h3

/-- A status event matching nothing leaves the server's message store
unchanged. -/
theorem applyStatusMem_nomatch (s : StatusEvent) (store : List StoredMessage)
    (h : ∀ m ∈ store, statusMatches s.id m = false) :
    applyStatusMem s store = store := by
  induction store with
  | nil => rfl
  | cons a l ih =>
    have ha := h a (List.mem_cons_self a l)
    simp [applyStatusMem, ha, ih (fun m hm => h m (List.mem_cons_of_mem a hm))]

/-- The server's status update rewrites exactly the first matching
message's `status` field. -/
theorem applyStatusMem_decomp (s : StatusEvent) (pre post : List StoredMessage)
    (m : StoredMessage)
    (hpre : ∀ y ∈ pre, statusMatches s.id y = false)
    (hm : statusMatches s.id m = true) :
    applyStatusMem s (pre ++ m :: post) = pre ++ { m with status := s.status } :: post := by
  induction pre with
  | nil => simp [applyStatusMem, hm]
  | cons a pre ih =>
    have ha : statusMatches s.id a = false := hpre a (List.mem_cons_self a pre)
    simp only [List.cons_append, applyStatusMem, ha]
    simp [ih (fun y hy => hpre y (List.mem_cons_of_mem a hy))]

/-- The offline processor's status update rewrites exactly the first
matching message's `status` and `status_timestamp` fields. -/
theorem applyStatusP0_decomp (s : StatusEvent) (pre post : List StoredMessage)
    (m : StoredMessage)
    (hpre : ∀ y ∈ pre, statusMatches s.id y = false)
    (hm : statusMatches s.id m = true) :
    applyStatusP0 s (pre ++ m :: post) =
      pre ++ { m with status := s.status, status_timestamp := some (s.timestamp * 1000) } :: post := by
  induction pre with
  | nil => simp [applyStatusP0, hm]
  | cons a pre ih =>
    have ha : statusMatches s.id a = false := hpre a (List.mem_cons_self a pre)
    simp only [List.cons_append, applyStatusP0, ha]
    simp [ih (fun y hy => hpre y (List.mem_cons_of_mem a hy))]

/-- Claim C3: a status event whose id `X` matches a stored message on
`primary_id` (`id`) or on `secondary_id` (`meta_msg_id`) — either field
alone suffices — is applied to that message, and when several match, only
the first encountered is updated: the store splits at the first match and
exactly that record's `status` is rewritten. -/
theorem c3_status_or_match (s : StatusEvent) (store : List StoredMessage)
    (h : ∃ m ∈ store, statusMatches s.id m = true) :
    ∃ pre m post, store = pre ++ m :: post ∧
      (∀ y ∈ pre, statusMatches s.id y = false) ∧
      statusMatches s.id m = true ∧
      applyStatusMem s store = pre ++ { m with status := s.status } :: post := by
  rcases exists_first_split (statusMatches s.id) store h with ⟨pre, m, post, hl, hpre, hm⟩
  exact ⟨pre, m, post, hl, hpre, hm, by
    rw [hl]; exact applyStatusMem_decomp s pre post m hpre hm⟩

/-- Claim C3 witness: in a store whose first record matches `"X"` only via
`meta_msg_id` and whose second record has `id = "X"`, the status update is
applied to the first encountered (the `meta_msg_id` match). -/
theorem c3_witness :
    (∃ m ∈ [wMsgMeta, wMsgId], statusMatches stX.id m = true) ∧
    (∃ pre m post, [wMsgMeta, wMsgId] = pre ++ m :: post ∧
      (∀ y ∈ pre, statusMatches stX.id y = false) ∧
      statusMatches stX.id m = true ∧
      applyStatusMem stX [wMsgMeta, wMsgId] = pre ++ { m with status := stX.status } :: post) :=
  ⟨by decide, c3_status_or_match stX [wMsgMeta, wMsgId] (by decide)⟩

/-- Claim C7 counterexample: the server's status loop does NOT write
`status_timestamp`. Applying the matching status event `stDel`
(timestamp 1625097660) to a store holding `storedM1` changes only `status`;
the updated record's `status_timestamp` is `none`, not
`timestamp * 1000` as claimed. -/
theorem c7_counterexample :
    applyStatusMem stDel [storedM1] = [{ storedM1 with status := "delivered" }] ∧
    ({ storedM1 with status := "delivered" } : StoredMessage).status_timestamp = none ∧
    (none : Option Nat) ≠ some (stDel.timestamp * 1000) := by
  refine ⟨by decide, rfl, by decide⟩

/-- Claim C7 (amended): a matching status event updates exactly the first
matching message, setting its `status` field — and, only in the offline
`WebhookProcessor`, also `status_timestamp = timestamp * 1000` — while every
other field of that message and every other record stay unchanged; the
server's handler never writes `status_timestamp`. -/
theorem c7_status_frame (s : StatusEvent) (pre post : List StoredMessage)
    (m : StoredMessage)
    (hpre : ∀ y ∈ pre, statusMatches s.id y = false)
    (hm : statusMatches s.id m = true) :
    applyStatusMem s (pre ++ m :: post) = pre ++ { m with status := s.status } :: post ∧
    applyStatusP0 s (pre ++ m :: post) =
      pre ++ { m with status := s.status,
                      status_timestamp := some (s.timestamp * 1000) } :: post :=
  ⟨applyStatusMem_decomp s pre post m hpre hm, applyStatusP0_decomp s pre post m hpre hm⟩

/-- Claim C7 witness: the frame property evaluated at `stDel` on the
one-record store `[storedM1]`. -/
theorem c7_witness :
    (applyStatusMem stDel ([] ++ storedM1 :: []) =
      [] ++ { storedM1 with status := stDel.status } :: []) ∧
    (applyStatusP0 stDel ([] ++ storedM1 :: []) =
      [] ++ { storedM1 with status := stDel.status,
                            status_timestamp := some (stDel.timestamp * 1000) } :: []) :=
  c7_status_frame stDel [] [] storedM1 (by decide) (by decide)

/-- Claim C8: a status event matching no stored message on either identity
field leaves the message store exactly unchanged, does not raise, and the
remaining status events of the payload are still processed (its
unconditional emit still precedes theirs). -/
theorem c8_unmatched_status_noop (s : StatusEvent) (rest : List StatusEvent)
    (store : List StoredMessage)
    (h : ∀ m ∈ store, statusMatches s.id m = false) :
    applyStatusMem s store = store ∧
    processStatusesMem (s :: rest) store =
      ((processStatusesMem rest store).1,
       Emit.messageStatusUpdate s.id s.status :: (processStatusesMem rest store).2) := by
  have h1 := applyStatusMem_nomatch s store h
  exact ⟨h1, by simp [processStatusesMem, h1]⟩

/-- Claim C8 witness: the unmatched status `stNope` over the store
`[wMsgMeta]` changes nothing and processing continues with `stX`. -/
theorem c8_witness :
    applyStatusMem stNope [wMsgMeta] = [wMsgMeta] ∧
    processStatusesMem (stNope :: [stX]) [wMsgMeta] =
      ((processStatusesMem [stX] [wMsgMeta]).1,
       Emit.messageStatusUpdate stNope.id stNope.status ::
         (processStatusesMem [stX] [wMsgMeta]).2) :=
  c8_unmatched_status_noop stNope [stX] [wMsgMeta] (by decide)

/-- Claim C5 counterexample: a payload whose `entry[0].changes` is an empty
array makes the handler read `.field` of `undefined`; the thrown `TypeError`
is caught and answered 500 — not 200 as claimed. -/
theorem c5_counterexample :
    (postWebhookMem pEmptyChanges initMemState).httpStatus = 500 ∧
    (postWebhookMem pEmptyChanges initMemState).httpStatus ≠ 200 := by decide

/-- Claim C5 (amended): an envelope with missing `entry`, empty `entry`
array, missing `changes`, `changes[0].field ≠ "messages"`, or missing
`changes[0].value` causes zero state changes, no emits, and a 200 response;
an envelope whose `changes` array is empty also causes zero state changes
and no emits, but its internal `TypeError` is caught and answered 500. -/
theorem c5_malformed_envelope (st : MemState) (entries : List Entry)
    (chs : List Change) (ch : Change) :
    postWebhookMem { entry := none } st =
      { httpStatus := 200, state := st, emits := [] } ∧
    postWebhookMem { entry := some [] } st =
      { httpStatus := 200, state := st, emits := [] } ∧
    postWebhookMem { entry := some ({ changes := none } :: entries) } st =
      { httpStatus := 200, state := st, emits := [] } ∧
    postWebhookMem { entry := some ({ changes := some [] } :: entries) } st =
      { httpStatus := 500, state := st, emits := [] } ∧
    (ch.field ≠ "messages" →
      postWebhookMem { entry := some ({ changes := some (ch :: chs) } :: entries) } st =
        { httpStatus := 200, state := st, emits := [] }) ∧
    (ch.field = "messages" → ch.value = none →
      postWebhookMem { entry := some ({ changes := some (ch :: chs) } :: entries) } st =
        { httpStatus := 200, state := st, emits := [] }) := by
  refine ⟨rfl, rfl, rfl, rfl, ?_, ?_⟩
  · intro h
    simp [postWebhookMem, extractValue, h]
  · intro h1 h2
    simp [postWebhookMem, extractValue, h1, h2]

/-- Claim C5 witness: the no-op cases evaluated at a `field = "subscribers"`
change and at a `field = "messages"` change with no `value`. -/
theorem c5_witness :
    postWebhookMem
        { entry := some [ { changes := some [ { field := "subscribers", value := none } ] } ] }
        initMemState =
      { httpStatus := 200, state := initMemState, emits := [] } ∧
    postWebhookMem
        { entry := some [ { changes := some [ { field := "messages", value := none } ] } ] }
        initMemState =
      { httpStatus := 200, state := initMemState, emits := [] } :=
  ⟨(c5_malformed_envelope initMemState [] [] { field := "subscribers", value := none }).2.2.2.2.1
      (by decide),
   (c5_malformed_envelope initMemState [] [] { field := "messages", value := none }).2.2.2.2.2
      rfl rfl⟩

/-- The message loop's emits: one `newMessage` per message event, in input
order, independent of the store contents. -/
theorem processMessagesMem_emits (meta : Option String)
    (cts : Option (List ContactEvent)) (ms : List MessageEvent) :
    ∀ store, (processMessagesMem meta cts ms store).2 =
      ms.map (fun m => Emit.newMessage (processedMessage meta cts m)) := by
  induction ms with
  | nil => intro store; rfl
  | cons m rest ih => intro store; simp [processMessagesMem, ih]

/-- The status loop's emits: one `messageStatusUpdate` per status event, in
input order, regardless of whether any stored message matched. -/
theorem processStatusesMem_emits (sts : List StatusEvent) :
    ∀ store, (processStatusesMem sts store).2 =
      sts.map (fun s => Emit.messageStatusUpdate s.id s.status) := by
  induction sts with
  | nil => intro store; rfl
  | cons s rest ih => intro store; simp [processStatusesMem, ih]

/-- The message loop's store effect: each message event's record is appended
in input order. -/
theorem processMessagesMem_store (meta : Option String)
    (cts : Option (List ContactEvent)) (ms : List MessageEvent) :
    ∀ store, (processMessagesMem meta cts ms store).1 =
      store ++ ms.map (processedMessage meta cts) := by
  induction ms with
  | nil => intro store; simp [processMessagesMem]
  | cons m rest ih => intro store; simp [processMessagesMem, ih]

/-- Claim C9 counterexample: a payload with one status event matching no
stored message (the store is empty) applies zero status changes yet emits
one `messageStatusUpdate` — the emit is per status event, not per applied
change. -/
theorem c9_counterexample :
    (postWebhookMem pStatusOnly { messagesStore := [], contactsStore := initialContactsStore }).emits =
      [Emit.messageStatusUpdate "nope" "read"] ∧
    (postWebhookMem pStatusOnly { messagesStore := [], contactsStore := initialContactsStore }).state.messagesStore = [] := by
  decide

/-- Claim C9 (amended): within one payload the realtime events are emitted
in processing order — one `newMessage` per message event first, then one
`messageStatusUpdate` per status event (emitted whether or not a stored
message matched), and nothing for contacts; so 2 messages then 1 status
yield `newMessage, newMessage, messageStatusUpdate`. -/
theorem c9_broadcast_order (meta : Option String) (ms : List MessageEvent)
    (sts : List StatusEvent) (cts : List ContactEvent) (st : MemState) :
    (postWebhookMem (mkPayload meta (some ms) (some sts) (some cts)) st).emits =
      ms.map (fun m => Emit.newMessage (processedMessage meta (some cts) m)) ++
      sts.map (fun s => Emit.messageStatusUpdate s.id s.status) := by
  simp [postWebhookMem, mkPayload, extractValue,
    processMessagesMem_emits, processStatusesMem_emits]

/-- Claim C6 counterexample: the record stored by the server's webhook
handler for `mEv1` has no `meta_msg_id` (`none`), not
`secondary_id = id` as claimed. -/
theorem c6_counterexample :
    (postWebhookMem pMsg1 initMemState).state.messagesStore.map StoredMessage.meta_msg_id =
      [none] ∧
    ([none] : List (Option String)) ≠ [some mEv1.id] := by decide

/-- Claim C6 (amended): the record stored on first sight of a message event
has `primary_id = id`, `_id = "msg_" ++ id`, `conversation_id = from`,
`created_at = timestamp * 1000`, `status = "received"`, and `display_name`
equal to the payload's first contact profile name when present (and
non-empty) else `from`; `secondary_id` is left unset (`none`) by the
server's webhook handler and is set to `id` only by the offline
`WebhookProcessor`. -/
theorem c6_message_construction (meta : Option String)
    (cts : Option (List ContactEvent)) (m : MessageEvent) (st : MemState) :
    (postWebhookMem (mkPayload meta (some [m]) none cts) st).state.messagesStore =
      st.messagesStore ++ [processedMessage meta cts m] ∧
    (processedMessage meta cts m).id = m.id ∧
    (processedMessage meta cts m)._id = "msg_" ++ m.id ∧
    (processedMessage meta cts m).wa_id = m.from_ ∧
    (processedMessage meta cts m).timestamp = m.timestamp * 1000 ∧
    (processedMessage meta cts m).status = "received" ∧
    (processedMessage meta cts m).meta_msg_id = none ∧
    (∀ n, firstContactName cts = some n → n ≠ "" →
      (processedMessage meta cts m).profile_name = n) ∧
    (firstContactName cts = none → (processedMessage meta cts m).profile_name = m.from_) ∧
    (processedMessageP0 meta cts m).meta_msg_id = some m.id := by
  refine ⟨?_, rfl, rfl, rfl, rfl, rfl, rfl, ?_, ?_, rfl⟩
  · simp [postWebhookMem, mkPayload, extractValue, processMessagesMem_store,
      processStatusesMem]
  · intro n h hne
    simp [processedMessage, jsOr, h, hne]
  · intro h
    simp [processedMessage, jsOr, h]

/-- Claim C6 witness: the construction evaluated on `mEv1` with contact
`ctJohn`: the stored record is appended and carries `display_name "John"`. -/
theorem c6_witness :
    (postWebhookMem (mkPayload (some "ph1") (some [mEv1]) none (some [ctJohn]))
        initMemState).state.messagesStore =
      initMemState.messagesStore ++ [processedMessage (some "ph1") (some [ctJohn]) mEv1] ∧
    (processedMessage (some "ph1") (some [ctJohn]) mEv1).profile_name = "John" :=
  ⟨(c6_message_construction (some "ph1") (some [ctJohn]) mEv1 initMemState).1,
   (c6_message_construction (some "ph1") (some [ctJohn]) mEv1 initMemState).2.2.2.2.2.2.2.1
      "John" rfl (by decide)⟩

/-- The offline processor's message upsert is idempotent: re-applying the
same `$set` document changes nothing. -/
theorem upsertMessageP0_idem (pm : StoredMessage) (store : List StoredMessage) :
    upsertMessageP0 pm (upsertMessageP0 pm store) = upsertMessageP0 pm store := by
  induction store with
  | nil => simp [upsertMessageP0, setMessageFields]
  | cons a l ih =>
    by_cases h : a.id = pm.id
    · simp [upsertMessageP0, h, setMessageFields]
    · simp [upsertMessageP0, h, ih]

/-- The offline processor's message upsert keyed on `id` leaves exactly one
record with that id when the store held at most one. -/
theorem upsertMessageP0_filter (pm : StoredMessage) (i : String) (hid : pm.id = i)
    (store : List StoredMessage)
    (h : (store.filter (fun r => r.id = i)).length ≤ 1) :
    ((upsertMessageP0 pm store).filter (fun r => r.id = i)).length = 1 := by
  subst hid
  induction store with
  | nil => simp [upsertMessageP0]
  | cons a l ih =>
    by_cases ha : a.id = pm.id
    · have hl : (l.filter (fun r => r.id = pm.id)).length = 0 := by
        have hcons : (a :: l).filter (fun r => r.id = pm.id) =
            a :: l.filter (fun r => r.id = pm.id) := by
          simp [List.filter_cons, ha]
        rw [hcons, List.length_cons] at h
        omega
      simp [upsertMessageP0, ha, setMessageFields, List.filter_cons, hl]
    · have h2 : (l.filter (fun r => r.id = pm.id)).length ≤ 1 := by
        simpa [List.filter_cons, ha] using h
      simp [upsertMessageP0, ha, List.filter_cons, ih h2]

/-- Claim C1 counterexample: the server's webhook handler is not an upsert.
Redelivering the same single-message payload (`pMsg1`) in fallback mode
leaves TWO records with the message's id, not one. -/
theorem c1_counterexample :
    ((postWebhookMem pMsg1 (postWebhookMem pMsg1 initMemState).state).state.messagesStore.filter
        (fun r => r.id = mEv1.id)).length = 2 ∧
    ((postWebhookMem pMsg1 (postWebhookMem pMsg1 initMemState).state).state.messagesStore.filter
        (fun r => r.id = mEv1.id)).length ≠ 1 := by decide

/-- Claim C1 (amended): only the offline `WebhookProcessor` applies a
message event as an idempotent upsert keyed on the provider id (applying it
twice equals applying it once, and exactly one record with that id remains,
carrying the last application's field values); the server's webhook handler
instead inserts unconditionally, so in fallback mode applying the same
message event twice appends two records. -/
theorem c1_message_upsert (meta : Option String) (cts : Option (List ContactEvent))
    (m : MessageEvent) (store : List StoredMessage)
    (h : (store.filter (fun r => r.id = m.id)).length ≤ 1) :
    upsertMessageP0 (processedMessageP0 meta cts m)
        (upsertMessageP0 (processedMessageP0 meta cts m) store) =
      upsertMessageP0 (processedMessageP0 meta cts m) store ∧
    ((upsertMessageP0 (processedMessageP0 meta cts m) store).filter
        (fun r => r.id = m.id)).length = 1 ∧
    (processMessagesMem meta cts [m, m] store).1 =
      store ++ [processedMessage meta cts m, processedMessage meta cts m] ∧
    ((store ++ [processedMessage meta cts m, processedMessage meta cts m]).filter
        (fun r => r.id = m.id)).length =
      (store.filter (fun r => r.id = m.id)).length + 2 := by
  refine ⟨upsertMessageP0_idem _ store,
    upsertMessageP0_filter (processedMessageP0 meta cts m) m.id rfl store h, ?_, ?_⟩
  · simp [processMessagesMem_store]
  · simp [List.filter_append, List.filter_cons, processedMessage]

/-- Claim C1 witness: the upsert/insert contrast evaluated at `mEv1` over
the empty store. -/
theorem c1_witness :
    (([] : List StoredMessage).filter (fun r => r.id = mEv1.id)).length ≤ 1 ∧
    (upsertMessageP0 (processedMessageP0 (some "ph1") (some [ctJohn]) mEv1)
        (upsertMessageP0 (processedMessageP0 (some "ph1") (some [ctJohn]) mEv1) []) =
      upsertMessageP0 (processedMessageP0 (some "ph1") (some [ctJohn]) mEv1) [] ∧
    ((upsertMessageP0 (processedMessageP0 (some "ph1") (some [ctJohn]) mEv1) []).filter
        (fun r => r.id = mEv1.id)).length = 1 ∧
    (processMessagesMem (some "ph1") (some [ctJohn]) [mEv1, mEv1] []).1 =
      [] ++ [processedMessage (some "ph1") (some [ctJohn]) mEv1,
             processedMessage (some "ph1") (some [ctJohn]) mEv1] ∧
    ((([] : List StoredMessage) ++ [processedMessage (some "ph1") (some [ctJohn]) mEv1,
             processedMessage (some "ph1") (some [ctJohn]) mEv1]).filter
        (fun r => r.id = mEv1.id)).length =
      (([] : List StoredMessage).filter (fun r => r.id = mEv1.id)).length + 2) :=
  ⟨by decide, c1_message_upsert (some "ph1") (some [ctJohn]) mEv1 [] (by decide)⟩

/-- A Mongo contact upsert on a store with no matching `wa_id` appends a new
document. -/
theorem upsertContactMongo_fresh (c : ContactEvent) (store : List MongoContact)
    (h : ∀ x ∈ store, x.wa_id ≠ c.wa_id) :
    upsertContactMongo c store =
      store ++ [{ wa_id := c.wa_id
                , profile_name := jsOr (c.profile.bind ContactProfile.name) c.wa_id }] := by
  induction store with
  | nil => rfl
  | cons a l ih =>
    have ha := h a (List.mem_cons_self a l)
    simp [upsertContactMongo, ha, ih (fun x hx => h x (List.mem_cons_of_mem a hx))]

/-- A Mongo contact upsert whose only matching document sits at the end
replaces that document's `profile_name` (last-write-wins). -/
theorem upsertContactMongo_found_last (c : ContactEvent) (store : List MongoContact)
    (old : MongoContact)
    (h : ∀ x ∈ store, x.wa_id ≠ c.wa_id) (hw : old.wa_id = c.wa_id) :
    upsertContactMongo c (store ++ [old]) =
      store ++ [{ wa_id := c.wa_id
                , profile_name := jsOr (c.profile.bind ContactProfile.name) c.wa_id }] := by
  induction store with
  | nil => simp [upsertContactMongo, hw]
  | cons a l ih =>
    have ha := h a (List.mem_cons_self a l)
    simp [upsertContactMongo, ha, ih (fun x hx => h x (List.mem_cons_of_mem a hx))]

/-- The fallback contact handling on a store with no matching `wa_id`
appends a new entry with `unreadCount = 0`. -/
theorem applyContactMem_fresh (c : ContactEvent) (store : List StoredContact)
    (h : ∀ x ∈ store, x.wa_id ≠ c.wa_id) :
    applyContactMem c store =
      store ++ [{ wa_id := c.wa_id
                , profile_name := jsOr (c.profile.bind ContactProfile.name) c.wa_id
                , unreadCount := 0 }] := by
  have hany : store.any (fun x => x.wa_id = c.wa_id) = false := by
    simp only [List.any_eq_false, decide_eq_true_eq]
    exact h
  simp [applyContactMem, hany]

/-- The fallback contact handling on a store already holding the `wa_id`
does nothing (the stored name is kept). -/
theorem applyContactMem_present (c : ContactEvent) (store : List StoredContact)
    (x : StoredContact) (hx : x ∈ store) (hw : x.wa_id = c.wa_id) :
    applyContactMem c store = store := by
  have hany : store.any (fun y => y.wa_id = c.wa_id) = true :=
    List.any_eq_true.mpr ⟨x, hx, by simp [hw]⟩
  simp [applyContactMem, hany]

/-- Filtering a fresh store extended with one matching element yields
exactly that element (Mongo contacts). -/
theorem filter_fresh_append_mongo (w : String) (store : List MongoContact)
    (x : MongoContact) (h : ∀ y ∈ store, y.wa_id ≠ w) (hx : x.wa_id = w) :
    (store ++ [x]).filter (fun c => c.wa_id = w) = [x] := by
  have h0 : store.filter (fun c => c.wa_id = w) = [] := by
    rw [List.filter_eq_nil_iff]
    intro y hy
    simp [h y hy]
  simp [List.filter_append, h0, List.filter_cons, hx]

/-- Filtering a fresh store extended with one matching element yields
exactly that element (fallback contacts). -/
theorem filter_fresh_append_mem (w : String) (store : List StoredContact)
    (x : StoredContact) (h : ∀ y ∈ store, y.wa_id ≠ w) (hx : x.wa_id = w) :
    (store ++ [x]).filter (fun c => c.wa_id = w) = [x] := by
  have h0 : store.filter (fun c => c.wa_id = w) = [] := by
    rw [List.filter_eq_nil_iff]
    intro y hy
    simp [h y hy]
  simp [List.filter_append, h0, List.filter_cons, hx]

/-- Re-upserting a contact with a second name in Mongo mode leaves one
record holding the second name. -/
theorem double_upsert_mongo (w a b : String) (store : List MongoContact)
    (pb : b ≠ "") (h : ∀ x ∈ store, x.wa_id ≠ w) :
    upsertContactMongo { wa_id := w, profile := some { name := some b } }
        (upsertContactMongo { wa_id := w, profile := some { name := some a } } store) =
      store ++ [{ wa_id := w, profile_name := b }] := by
  rw [upsertContactMongo_fresh _ store h]
  rw [upsertContactMongo_found_last _ store _ h rfl]
  simp [jsOr, pb]

/-- Re-sending a contact with a second name in fallback mode leaves one
record holding the FIRST name. -/
theorem double_upsert_mem (w a b : String) (store : List StoredContact)
    (pa : a ≠ "") (h : ∀ x ∈ store, x.wa_id ≠ w) :
    applyContactMem { wa_id := w, profile := some { name := some b } }
        (applyContactMem { wa_id := w, profile := some { name := some a } } store) =
      store ++ [{ wa_id := w, profile_name := a, unreadCount := 0 }] := by
  rw [applyContactMem_fresh _ store h]
  have hstep : jsOr ((some { name := some a } : Option ContactProfile).bind ContactProfile.name) w = a := by
    simp [jsOr, pa]
  rw [hstep]
  exact applyContactMem_present _ _ { wa_id := w, profile_name := a, unreadCount := 0 }
    (List.mem_append_right store (List.mem_singleton.mpr rfl)) rfl

/-- Claim C4 counterexample: in fallback mode, re-sending the contact
`wa_id = "777"` with a second name keeps the FIRST name ("Alice"), not the
latest ("Bob") as claimed. -/
theorem c4_counterexample :
    ((applyContactMem ctBob (applyContactMem ctAlice initialContactsStore)).filter
        (fun x => x.wa_id = "777")).map StoredContact.profile_name = ["Alice"] ∧
    (["Alice"] : List String) ≠ ["Bob"] := by decide

/-- Claim C4 (amended): the contact write never duplicates rows — exactly
one record per `wa_id` in either mode — but only the durable (Mongo) mode
is an unconditional last-write-wins upsert (latest name stored); the
fallback mode is insert-if-absent, keeping the first name and ignoring the
later one. -/
theorem c4_contact_upsert (w a b : String) (pa : a ≠ "") (pb : b ≠ "")
    (mstore : List MongoContact) (cstore : List StoredContact)
    (hm : ∀ x ∈ mstore, x.wa_id ≠ w) (hc : ∀ x ∈ cstore, x.wa_id ≠ w) :
    ((upsertContactMongo { wa_id := w, profile := some { name := some b } }
        (upsertContactMongo { wa_id := w, profile := some { name := some a } } mstore)).filter
        (fun x => x.wa_id = w)).map MongoContact.profile_name = [b] ∧
    ((applyContactMem { wa_id := w, profile := some { name := some b } }
        (applyContactMem { wa_id := w, profile := some { name := some a } } cstore)).filter
        (fun x => x.wa_id = w)).map StoredContact.profile_name = [a] := by
  constructor
  · rw [double_upsert_mongo w a b mstore pb hm,
      filter_fresh_append_mongo w mstore _ hm rfl]
    rfl
  · rw [double_upsert_mem w a b cstore pa hc,
      filter_fresh_append_mem w cstore _ hc rfl]
    rfl

/-- Claim C4 witness: the contrast evaluated at `wa_id = "777"` with names
"Alice" then "Bob" over the empty Mongo collection and the seeded fallback
store. -/
theorem c4_witness :
    ((upsertContactMongo { wa_id := "777", profile := some { name := some "Bob" } }
        (upsertContactMongo { wa_id := "777", profile := some { name := some "Alice" } } [])).filter
        (fun x => x.wa_id = "777")).map MongoContact.profile_name = ["Bob"] ∧
    ((applyContactMem { wa_id := "777", profile := some { name := some "Bob" } }
        (applyContactMem { wa_id := "777", profile := some { name := some "Alice" } }
          initialContactsStore)).filter
        (fun x => x.wa_id = "777")).map StoredContact.profile_name = ["Alice"] :=
  c4_contact_upsert "777" "Alice" "Bob" (by decide) (by decide) [] initialContactsStore
    (by decide) (by decide)

/-- Claim C2 counterexample: one payload carrying the contact `"777"` twice
(names "Alice" then "Bob") applied to fresh states makes the two modes
disagree through `listContacts`: durable mode reports "Bob", fallback mode
reports "Alice", and the full projected contact lists differ as well. -/
theorem c2_counterexample :
    ((listContactsMongo (postWebhookMongo pAB initMongoState).state).find?
        (fun c => c.wa_id = "777")).map MongoContact.profile_name = some "Bob" ∧
    ((listContactsMem (postWebhookMem pAB initMemState).state).find?
        (fun c => c.wa_id = "777")).map StoredContact.profile_name = some "Alice" ∧
    (some "Bob" : Option String) ≠ some "Alice" ∧
    (listContactsMongo (postWebhookMongo pAB initMongoState).state).map
        (fun c => (c.wa_id, c.profile_name)) ≠
      (listContactsMem (postWebhookMem pAB initMemState).state).map
        (fun c => (c.wa_id, c.profile_name)) := by decide

/-- Claim C2 (amended): the two persistence modes are NOT query-equivalent.
For the fixed operation sequence "one webhook payload re-sending contact `w`
with name `a` then name `b`", `listContacts` returns name `b` for `w` in
durable mode but name `a` in fallback mode (durable contact writes are
last-write-wins, fallback writes are insert-if-absent). -/
theorem c2_fallback_inequivalence (w a b : String)
    (pa : a ≠ "") (pb : b ≠ "") (hab : a ≠ b)
    (mst : MongoState) (cst : MemState)
    (hm : ∀ x ∈ mst.contacts, x.wa_id ≠ w) (hc : ∀ x ∈ cst.contactsStore, x.wa_id ≠ w) :
    ((listContactsMongo (postWebhookMongo (mkPayload none none none
        (some [{ wa_id := w, profile := some { name := some a } },
               { wa_id := w, profile := some { name := some b } }])) mst).state).filter
        (fun c => c.wa_id = w)).map MongoContact.profile_name = [b] ∧
    ((listContactsMem (postWebhookMem (mkPayload none none none
        (some [{ wa_id := w, profile := some { name := some a } },
               { wa_id := w, profile := some { name := some b } }])) cst).state).filter
        (fun c => c.wa_id = w)).map StoredContact.profile_name = [a] ∧
    ([b] : List String) ≠ [a] := by
  refine ⟨?_, ?_, by simp [Ne.symm hab]⟩
  · show (((processContactsMongo _ mst.contacts)).filter
        (fun c => c.wa_id = w)).map MongoContact.profile_name = [b]
    simp only [processContactsMongo]
    rw [double_upsert_mongo w a b mst.contacts pb hm,
      filter_fresh_append_mongo w mst.contacts _ hm rfl]
    rfl
  · show (((processContactsMem _ cst.contactsStore)).filter
        (fun c => c.wa_id = w)).map StoredContact.profile_name = [a]
    simp only [processContactsMem]
    rw [double_upsert_mem w a b cst.contactsStore pa hc,
      filter_fresh_append_mem w cst.contactsStore _ hc rfl]
    rfl

/-- Claim C2 witness: the divergence evaluated at `w = "777"`, names
"Alice"/"Bob", fresh Mongo collections and the seeded fallback state. -/
theorem c2_witness :
    ((listContactsMongo (postWebhookMongo (mkPayload none none none
        (some [{ wa_id := "777", profile := some { name := some "Alice" } },
               { wa_id := "777", profile := some { name := some "Bob" } }])) initMongoState).state).filter
        (fun c => c.wa_id = "777")).map MongoContact.profile_name = ["Bob"] ∧
    ((listContactsMem (postWebhookMem (mkPayload none none none
        (some [{ wa_id := "777", profile := some { name := some "Alice" } },
               { wa_id := "777", profile := some { name := some "Bob" } }])) initMemState).state).filter
        (fun c => c.wa_id = "777")).map StoredContact.profile_name = ["Alice"] ∧
    (["Bob"] : List String) ≠ ["Alice"] :=
  c2_fallback_inequivalence "777" "Alice" "Bob" (by decide) (by decide) (by decide)
    initMongoState initMemState (by decide) (by decide)

/-- Contact records created by the fallback contact loop always carry
`unreadCount = 0`: any record in the output was already in the input store
or has a zero unread count. -/
theorem processContactsMem_creates_zero_unread (cs : List ContactEvent) :
    ∀ store c, c ∈ processContactsMem cs store → c ∈ store ∨ c.unreadCount = 0 := by
  induction cs with
  | nil => intro store c hc; exact Or.inl hc
  | cons e rest ih =>
    intro store c hc
    rcases ih (applyContactMem e store) c hc with h | h
    · cases hany : store.any (fun x => x.wa_id = e.wa_id) with
      | true =>
        left
        simpa [applyContactMem, hany] using h
      | false =>
        simp only [applyContactMem, hany] at h
        simp only [Bool.false_eq_true, if_false, List.mem_append, List.mem_singleton] at h
        rcases h with h | h
        · exact Or.inl h
        · right; rw [h]
    · exact Or.inr h

/-- Claim C10 counterexample: the second hard-coded demo contact
("Jane Smith") has `unreadCount = 0`, so the seeded contacts do not all
carry nonzero unread counts. -/
theorem c10_counterexample :
    initialContactsStore[1]? =
      some { wa_id := "0987654321", profile_name := "Jane Smith", unreadCount := 0 } ∧
    ¬ (∀ c ∈ initialContactsStore, c.unreadCount ≠ 0) := by decide

/-- Claim C10 (amended): in fallback mode the contacts store is pre-seeded
at startup with three hard-coded demo contacts carrying unread counts 2, 0
and 1 (two nonzero, one zero), so the fallback contacts read endpoint
returns these three entries before any ingestion; and since the ingestion
contact loop only ever creates entries with `unreadCount = 0`, the seeds
with nonzero counts are records the ingestion pipeline never created. -/
theorem c10_seeded_contacts :
    listContactsMem initMemState = initialContactsStore ∧
    initialContactsStore.length = 3 ∧
    initialContactsStore.map StoredContact.unreadCount = [2, 0, 1] ∧
    initialContactsStore.map StoredContact.profile_name =
      ["John Doe", "Jane Smith", "Mike Johnson"] ∧
    initMemState.messagesStore = [] ∧
    (∀ cs store c, c ∈ processContactsMem cs store → c ∈ store ∨ c.unreadCount = 0) ∧
    ({ wa_id := "1234567890", profile_name := "John Doe", unreadCount := 2 } :
      StoredContact).unreadCount ≠ 0 :=
  ⟨rfl, rfl, rfl, rfl, rfl, fun cs => processContactsMem_creates_zero_unread cs, by decide⟩

/-- Claim C10 witness: the ingestion-invariant conjunct evaluated on a
concrete contact event over the empty store. -/
theorem c10_witness :
    ({ wa_id := "999", profile_name := "Zed", unreadCount := 0 } : StoredContact) ∈
        ([] : List StoredContact) ∨
      ({ wa_id := "999", profile_name := "Zed", unreadCount := 0 } : StoredContact).unreadCount = 0 :=
  c10_seeded_contacts.2.2.2.2.2.1
    [{ wa_id := "999", profile := some { name := some "Zed" } }] []
    { wa_id := "999", profile_name := "Zed", unreadCount := 0 } (by decide)
